import Mathlib

/-!
# Shallow embedding of the notesapi backend (src/main.py, src/models.py)

The embedding models the request handlers of `src/main.py` operating over an
explicit database state (the two tables `notes` and `users` of
`src/models.py`).  SQL behaviour visible to the handlers is modelled
explicitly: primary-key auto-increment via a `next id` counter, column
defaults applied only when a column is absent from the constructor payload
(SQLAlchemy `Column(..., default=...)` semantics), `WHERE` as `List.filter`,
`ORDER BY id DESC` as an insertion sort by descending id, `OFFSET`/`LIMIT`
as `drop`/`take`, and the `users.username` unique constraint as an
`IntegrityError` on a duplicate insert.

JSON object values distinguish an *absent* key from a key *present with
`null`* (SQLAlchemy and pydantic `exclude_unset` both distinguish these),
so an optional string column in a payload is `Option (Option String)`:
`none` = key absent, `some none` = key present with `null`,
`some (some s)` = key present with string `s`.

Datetimes are modelled as natural numbers (an abstract clock value); the
`%Y-%m-%d` formatting of `datetime.now()` used by the raw-body fallback of
`create_note` is modelled on an explicit `(year, month, day)` triple.
-/

namespace NotesApi

/-- A row of the `notes` table (`src/models.py`, class `Note`).  All string
columns are nullable (no `nullable=False` is declared), hence `Option`.
`timestamp` is an abstract datetime value. -/
structure Note where
  id : Nat
  title : Option String
  body : Option String
  url : Option String
  timestamp : Nat
  category : Option String
  username : Option String
deriving Repr, DecidableEq

/-- A row of the `users` table (`src/models.py`, class `User`). -/
structure User where
  id : Nat
  username : String
  hashed_password : String
deriving Repr, DecidableEq

/-- The persistent state: the two tables plus their auto-increment
counters. -/
structure DB where
  notes : List Note
  users : List User
  nextNoteId : Nat
  nextUserId : Nat
deriving Repr, DecidableEq

/-- Well-formedness maintained by auto-increment: every stored note id is
below the counter, so a freshly assigned id is new. -/
def DB.wf (db : DB) : Prop :=
  ∀ n ∈ db.notes, n.id < db.nextNoteId

instance (db : DB) : Decidable db.wf := by
  unfold DB.wf; infer_instance

/-- A structured JSON payload for `POST /notes/` as consumed by
`Note(**note_data)` in `create_note` (src/main.py lines 107-108): each
field is a JSON key that may be absent (`none`), present with `null`
(`some none`), or present with a string (`some (some s)`). -/
structure NotePayload where
  title : Option (Option String)
  body : Option (Option String)
  url : Option (Option String)
  category : Option (Option String)
  username : Option (Option String)
deriving Repr, DecidableEq

/-- A payload is accepted end-to-end by `create_note` only when `title` is a
string: the handler serialises the new row through `NoteResponse`, whose
`title : str` field rejects a missing/null title. -/
def NotePayload.valid (p : NotePayload) : Bool :=
  match p.title with
  | some (some _) => true
  | _ => false

/-- Constructor call `Note(**note_data)` on a structured payload: a key absent from the
payload takes the column default of `src/models.py` (`body = "None"`,
`url = ""`, `category = "Personal"`, `username = "user1"`,
`timestamp = datetime.now()`); a key present in the payload — even with
`null` — is stored as given.  `title` has no column default.  `id` is the
auto-increment value. -/
def Note.fromPayload (p : NotePayload) (id : Nat) (now : Nat) : Note :=
  { id := id
    title := p.title.getD none
    body := p.body.getD (some "None")
    url := p.url.getD (some "")
    timestamp := now
    category := p.category.getD (some "Personal")
    username := p.username.getD (some "user1") }

/-- Zero-pad a number to two digits, as `strftime` `%m` / `%d` do. -/
def pad2 (n : Nat) : String :=
  if n < 10 then "0" ++ toString n else toString n

/-- Zero-pad a year to four digits, as `strftime` `%Y` does. -/
def pad4 (n : Nat) : String :=
  if n < 10 then "000" ++ toString n
  else if n < 100 then "00" ++ toString n
  else if n < 1000 then "0" ++ toString n
  else toString n

/-- A calendar date, the value of `datetime.now()` as seen by
`strftime("%Y-%m-%d")`. -/
structure Date where
  year : Nat
  month : Nat
  day : Nat
deriving Repr, DecidableEq

/-- Formatting `datetime.now().strftime("%Y-%m-%d")` (src/main.py line 112). -/
def formatDate (d : Date) : String :=
  pad4 d.year ++ "-" ++ pad2 d.month ++ "-" ++ pad2 d.day

/-- The body of a `POST /notes/` request, after `await request.json()` has
either succeeded with a JSON object or raised `JSONDecodeError`.  In the
failure case the handler reads `await request.body()` and decodes it as
UTF-8; `raw` carries that decoded text. -/
inductive RequestBody where
  | jsonObj (p : NotePayload)
  | raw (s : String)
deriving Repr, DecidableEq

/-- Handler `create_note` (src/main.py lines 104-120).  The structured branch
builds `Note(**note_data)` from the parsed JSON object; the
`JSONDecodeError` branch stores the raw body text as `body` and the current
date, formatted `YYYY-MM-DD`, as `title`.  Either branch inserts the row
and returns it (after `refresh`, i.e. with its generated id). -/
def create_note (db : DB) (body : RequestBody) (today : Date) (now : Nat) :
    DB × Note :=
  let p : NotePayload :=
    match body with
    | .jsonObj p => p
    | .raw s =>
        { title := some (some (formatDate today))
          body := some (some s)
          url := none, category := none, username := none }
  let n := Note.fromPayload p db.nextNoteId now
  ({ db with notes := db.notes ++ [n], nextNoteId := db.nextNoteId + 1 }, n)

/-- Query `select(Note).filter(Note.id == note_id)` + `scalar_one_or_none`:
primary-key lookup. -/
def find_note (db : DB) (note_id : Nat) : Option Note :=
  db.notes.find? (fun n => n.id == note_id)

/-- HTTP-level errors raised by the handlers (`HTTPException`). -/
inductive HTTPError where
  | httpError (status : Nat) (detail : String)
deriving Repr, DecidableEq

/-- Handler `read_note` (src/main.py lines 143-149): `GET /notes/{id}` returns the
row or a 404.  (The API-key dependency gates the route; it does not touch
the database and is not modelled.) -/
def read_note (db : DB) (note_id : Nat) : Except HTTPError Note :=
  match find_note db note_id with
  | none => .error (.httpError 404 "Note not found")
  | some n => .ok n

/-- The `ORDER BY Note.id DESC` ordering: `a` precedes `b` when `a` has the
larger (or equal) id. -/
def idGe (a b : Note) : Prop := b.id ≤ a.id

instance : DecidableRel idGe := fun a b => Nat.decLe b.id a.id

instance : IsTotal Note idGe := ⟨fun a b => Nat.le_total b.id a.id⟩

instance : IsTrans Note idGe := ⟨fun _ _ _ h h2 => Nat.le_trans h2 h⟩

/-- The response of `GET /notes/` (class `PaginationResponse`).  The two
counters are Python ints, hence `Int`. -/
structure PaginationResponse where
  total_pages : Int
  current_page : Int
  data : List Note
deriving Repr, DecidableEq

/-- Handler `read_notes` (src/main.py lines 122-140): `GET /notes/` with query
parameters `username`, `page`, `page_size` (Python ints, possibly
negative).  Mirrors the handler line by line: clamp `page_size` to at least
1; count rows with `Note.username == username` (SQL `=` on a nullable
column is false on NULL, hence the comparison with `some username`);
`total_pages = (total_count + page_size - 1) // page_size`;
`current_page = max(1, min(page, total_pages))`;
`skip = (current_page - 1) * page_size`; then select the matching rows
ordered by id descending with `OFFSET skip LIMIT page_size`.  All the
integers involved in `//`, `offset` and `limit` are nonnegative here, so
Lean `Int` division and `toNat` coincide with Python `//` and slicing. -/
def read_notes (db : DB) (username : String) (page : Int) (page_size : Int) :
    PaginationResponse :=
  let page_size : Int := max 1 page_size
  let matching := db.notes.filter (fun n => n.username == some username)
  let total_count : Int := (matching.length : Int)
  let total_pages : Int := (total_count + page_size - 1) / page_size
  let current_page : Int := max 1 (min page total_pages)
  let skip : Int := (current_page - 1) * page_size
  let sorted := List.insertionSort idGe matching
  { total_pages := total_pages
    current_page := current_page
    data := (sorted.drop skip.toNat).take page_size.toNat }

/-- The pydantic model `NoteUpdate` (src/main.py lines 35-38) together with
the set/unset tracking used by `dict(exclude_unset=True)`: `none` = field
not supplied, `some v` = field supplied with value `v` (`v = none` is an
explicit JSON `null`). -/
structure NoteUpdate where
  title : Option (Option String)
  body : Option (Option String)
  category : Option (Option String)
deriving Repr, DecidableEq

/-- The `for key, value in note_data.items(): setattr(note, key, value)`
loop of `update_note` over `note_update.dict(exclude_unset=True)`: each
field that was set in the request overwrites the row attribute, each unset
field is left untouched. -/
def apply_note_update (n : Note) (u : NoteUpdate) : Note :=
  { n with
    title := u.title.getD n.title
    body := u.body.getD n.body
    category := u.category.getD n.category }

/-- Handler `update_note` (src/main.py lines 151-162): `PUT /notes/{id}` looks the
row up by primary key, 404s when absent, otherwise applies the set fields
and commits.  Returns the new state and the updated row. -/
def update_note (db : DB) (note_id : Nat) (u : NoteUpdate) :
    Except HTTPError (DB × Note) :=
  match find_note db note_id with
  | none => .error (.httpError 404 "Note not found")
  | some n =>
      let updated := apply_note_update n u
      .ok ({ db with
              notes := db.notes.map fun m => if m.id == note_id then updated else m },
           updated)

/-- Parsing a raw JSON object into `NoteUpdate`, as pydantic does for the
`PUT /notes/{id}` request body.  The object is a list of key/value entries
(values: a string or `null`).  Only the declared fields `title`, `body`,
`category` are read; every other key (`url`, `username`, `id`,
`timestamp`, ...) is ignored (pydantic default `Extra.ignore`).  With
duplicate keys `json.loads` keeps the last occurrence, hence `getLast?`. -/
def parseNoteUpdate (kvs : List (String × Option String)) : NoteUpdate :=
  let field := fun (k : String) => ((kvs.filter (fun e => e.1 == k)).getLast?).map Prod.snd
  { title := field "title", body := field "body", category := field "category" }

/-! ## Credential service -/

/-- The JWT claim set used by this application: `sub` and (never actually
set, see `create_access_token`) `exp`. -/
structure Claims where
  sub : Option String
  exp : Option Nat
deriving Repr, DecidableEq

/-- The HMAC-SHA256 signature of a claim set under a key, modelled as the
(injective) pairing of the signed content with the key. -/
def hmacSign (c : Claims) (key : String) : Claims × String := (c, key)

/-- A compact signed token: payload plus signature. -/
structure Token where
  claims : Claims
  sig : Claims × String
deriving Repr, DecidableEq

/-- Constant `SECRET_KEY` comes from the external `config` module; its value is
irrelevant to the handlers, only its identity matters. -/
def SECRET_KEY : String := "secret-key"

/-- Constant `ACCESS_TOKEN_EXPIRE_MINUTES = 30` (src/main.py line 23): configured
but, as the theorems below show, never embedded into any token. -/
def ACCESS_TOKEN_EXPIRE_MINUTES : Nat := 30

/-- Function `create_access_token` (src/main.py lines 72-75): `jwt.encode` of a copy
of the supplied claims — nothing (in particular no `exp`) is added. -/
def create_access_token (data : Claims) : Token :=
  { claims := data, sig := hmacSign data SECRET_KEY }

/-- Call `jwt.decode(token, key, algorithms=["HS256"])` at clock time `now`:
checks the signature, then (PyJWT behaviour) rejects an expired token —
but only if an `exp` claim is present; a token without `exp` is accepted at
any time.  Returns the payload on success. -/
def jwt_decode (t : Token) (key : String) (now : Nat) : Option Claims :=
  if t.sig = hmacSign t.claims key then
    match t.claims.exp with
    | some e => if e ≤ now then none else some t.claims
    | none => some t.claims
  else none

/-- Hashing `pwd_context.hash` (bcrypt), modelled as an injective tagging of the
plaintext: the model keeps exactly the contract the handlers rely on —
`verify_password p (get_password_hash p) = true`, and a hash verifies no
other plaintext. -/
def get_password_hash (password : String) : String :=
  "$2b$12$" ++ password

/-- Verification `pwd_context.verify` (src/main.py lines 68-69). -/
def verify_password (plain_password hashed_password : String) : Bool :=
  hashed_password == get_password_hash plain_password

/-! ## Account service -/

/-- Request body of `POST /token` (class `LoginRequest`). -/
structure LoginRequest where
  username : String
  password : String
deriving Repr, DecidableEq

/-- Response body of a successful `POST /token`. -/
structure TokenResponse where
  access_token : Token
  token_type : String
deriving Repr, DecidableEq

/-- Helper `get_user_by_username` (src/main.py lines 174-176):
`select(User).where(User.username == username)` + `scalar_one_or_none`
(usernames are unique, so at most one row matches). -/
def get_user_by_username (db : DB) (username : String) : Option User :=
  db.users.find? (fun u => u.username == username)

/-- Handler `login_for_access_token` (src/main.py lines 178-185): look the user up;
if absent or the password does not verify, raise 400 "Incorrect username or
password"; otherwise issue a token with the username as `sub` claim and
token type "bearer".  (`access_token_expires` is computed on line 183 and
then never used.) -/
def login_for_access_token (db : DB) (req : LoginRequest) :
    Except HTTPError TokenResponse :=
  match get_user_by_username db req.username with
  | none => .error (.httpError 400 "Incorrect username or password")
  | some user =>
      if verify_password req.password user.hashed_password then
        .ok { access_token := create_access_token { sub := some user.username, exp := none }
              token_type := "bearer" }
      else .error (.httpError 400 "Incorrect username or password")

/-- Errors raised by the storage layer itself (not `HTTPException`):
the unique constraint on `users.username` surfaces as SQLAlchemy
`IntegrityError` at commit, which `create_user` does not catch. -/
inductive DbError where
  | integrityError
deriving Repr, DecidableEq

/-- Request body of `POST /register` (class `UserCreate`). -/
structure UserCreate where
  username : String
  password : String
deriving Repr, DecidableEq

/-- Handler `create_user` (src/main.py lines 187-193): hash the password, insert
the row, commit.  No proactive uniqueness check: a duplicate username makes
the commit fail with the storage layer's `IntegrityError`, the transaction
rolls back and the table is unchanged.  Returns the (possibly unchanged)
state together with the outcome. -/
def create_user (db : DB) (user : UserCreate) : DB × Except DbError String :=
  let hashed_password := get_password_hash user.password
  if db.users.any (fun u => u.username == user.username) then
    (db, .error .integrityError)
  else
    ({ db with
        users := db.users ++ [{ id := db.nextUserId
                                username := user.username
                                hashed_password := hashed_password }]
        nextUserId := db.nextUserId + 1 },
     .ok "User created successfully")

/-! ## Concrete states used by the witnesses -/

/-- A one-user database: "alice" registered with password "pw". -/
def dbAlice : DB := ⟨[], [⟨1, "alice", get_password_hash "pw"⟩], 1, 2⟩

/-- Alice's login request with the correct password. -/
def reqAlice : LoginRequest := ⟨"alice", "pw"⟩

/-- The claim set `{"sub": "alice"}` issued by a successful login. -/
def claimsAlice : Claims := { sub := some "alice", exp := none }

/-- The response of Alice's successful login. -/
def respAlice : TokenResponse :=
  { access_token := create_access_token claimsAlice, token_type := "bearer" }

/-- A stored note used by the update witnesses. -/
def noteEx : Note :=
  { id := 1, title := some "T", body := some "B", url := some "U"
    timestamp := 7, category := some "C", username := some "user1" }

/-- A database holding just `noteEx`. -/
def dbNote : DB := ⟨[noteEx], [], 2, 1⟩

/-- Three notes owned by "user1" (ids 1, 2, 3), used by the pagination
witness. -/
def dbNotes3 : DB :=
  ⟨[{ id := 1, title := some "a", body := some "A", url := some "", timestamp := 1,
      category := some "Personal", username := some "user1" },
    { id := 2, title := some "b", body := some "B", url := some "", timestamp := 2,
      category := some "Personal", username := some "user1" },
    { id := 3, title := some "c", body := some "C", url := some "", timestamp := 3,
      category := some "Personal", username := some "user1" }], [], 4, 1⟩

/-! ## Theorems -/

/-- C1: For every valid structured note payload, calling createNote and then
getNote on the returned id yields a note whose field values (title, body,
url, category, username) are identical to those of the created note
(create/get round-trip). -/
theorem create_get_round_trip (db : DB) (p : NotePayload) (today : Date) (now : Nat)
    (hwf : db.wf) (hv : p.valid = true) :
    ∃ m : Note,
      read_note (create_note db (.jsonObj p) today now).1
          (create_note db (.jsonObj p) today now).2.id = .ok m ∧
      m.title = (create_note db (.jsonObj p) today now).2.title ∧
      m.body = (create_note db (.jsonObj p) today now).2.body ∧
      m.url = (create_note db (.jsonObj p) today now).2.url ∧
      m.category = (create_note db (.jsonObj p) today now).2.category ∧
      m.username = (create_note db (.jsonObj p) today now).2.username := by
  refine ⟨(create_note db (.jsonObj p) today now).2, ?_, rfl, rfl, rfl, rfl, rfl⟩
  have h1 : db.notes.find? (fun n => n.id == db.nextNoteId) = none := by
    rw [List.find?_eq_none]
    intro x hx
    simp only [beq_iff_eq]
    exact Nat.ne_of_lt (hwf x hx)
  simp [read_note, find_note, create_note, List.find?_append, h1, Note.fromPayload]

/-- C1 witness: the round-trip at a concrete database and payload. -/
theorem create_get_round_trip_witness :
    ∃ m : Note,
      read_note (create_note ⟨[], [], 1, 1⟩
            (.jsonObj ⟨some (some "A"), some (some "b"), none, none, none⟩)
            ⟨2024, 1, 2⟩ 5).1
          (create_note ⟨[], [], 1, 1⟩
            (.jsonObj ⟨some (some "A"), some (some "b"), none, none, none⟩)
            ⟨2024, 1, 2⟩ 5).2.id = .ok m ∧
      m.title = (create_note ⟨[], [], 1, 1⟩
            (.jsonObj ⟨some (some "A"), some (some "b"), none, none, none⟩)
            ⟨2024, 1, 2⟩ 5).2.title ∧
      m.body = (create_note ⟨[], [], 1, 1⟩
            (.jsonObj ⟨some (some "A"), some (some "b"), none, none, none⟩)
            ⟨2024, 1, 2⟩ 5).2.body ∧
      m.url = (create_note ⟨[], [], 1, 1⟩
            (.jsonObj ⟨some (some "A"), some (some "b"), none, none, none⟩)
            ⟨2024, 1, 2⟩ 5).2.url ∧
      m.category = (create_note ⟨[], [], 1, 1⟩
            (.jsonObj ⟨some (some "A"), some (some "b"), none, none, none⟩)
            ⟨2024, 1, 2⟩ 5).2.category ∧
      m.username = (create_note ⟨[], [], 1, 1⟩
            (.jsonObj ⟨some (some "A"), some (some "b"), none, none, none⟩)
            ⟨2024, 1, 2⟩ 5).2.username :=
  create_get_round_trip ⟨[], [], 1, 1⟩
    ⟨some (some "A"), some (some "b"), none, none, none⟩ ⟨2024, 1, 2⟩ 5
    (by intro n hn; cases hn) rfl

/-- C3 (code bug): the spec declares `title` required, but the `title`
column has no `NOT NULL` constraint and `create_note` builds the row
straight from the raw JSON dict.  Failing input: `POST /notes/` with the
valid-JSON body `{}` — a note whose title is NULL is persisted (the
handler then crashes serialising it through `NoteResponse`, whose
`title : str` is required, but only after the commit). -/
theorem title_null_persisted :
    ((create_note ⟨[], [], 1, 1⟩ (.jsonObj ⟨none, none, none, none, none⟩)
        ⟨2024, 1, 2⟩ 0).2 ∈
      (create_note ⟨[], [], 1, 1⟩ (.jsonObj ⟨none, none, none, none, none⟩)
        ⟨2024, 1, 2⟩ 0).1.notes) ∧
    (create_note ⟨[], [], 1, 1⟩ (.jsonObj ⟨none, none, none, none, none⟩)
        ⟨2024, 1, 2⟩ 0).2.title = none := by
  constructor
  · simp [create_note, Note.fromPayload]
  · rfl

/-- C4: For every successful login, the issued access token encodes exactly
the supplied claims (`sub` = the username) and contains no expiry claim,
even though `ACCESS_TOKEN_EXPIRE_MINUTES` exists; consequently signature
verification accepts the token at any later time. -/
theorem token_has_no_expiry (db : DB) (req : LoginRequest) (r : TokenResponse)
    (h : login_for_access_token db req = .ok r) :
    r.access_token.claims = { sub := some req.username, exp := none } ∧
    ∀ now : Nat, jwt_decode r.access_token SECRET_KEY now =
        some { sub := some req.username, exp := none } := by
  cases hu : get_user_by_username db req.username with
  | none => simp [login_for_access_token, hu] at h
  | some user =>
      have huser : user.username = req.username := by
        have h2 : db.users.find? (fun u => u.username == req.username) = some user := hu
        simpa using List.find?_some h2
      by_cases hv : verify_password req.password user.hashed_password
      · simp only [login_for_access_token, hu, hv, if_true] at h
        cases h
        constructor
        · simp [create_access_token, huser]
        · intro now
          simp [jwt_decode, create_access_token, hmacSign, huser]
      · simp [login_for_access_token, hu, hv] at h

/-- C4 witness: a concrete successful login issues a token with no expiry,
accepted at every clock time. -/
theorem token_has_no_expiry_witness :
    respAlice.access_token.claims = { sub := some "alice", exp := none } ∧
    ∀ now : Nat,
      jwt_decode respAlice.access_token SECRET_KEY now =
        some { sub := some "alice", exp := none } :=
  token_has_no_expiry dbAlice reqAlice respAlice rfl

/-- C5: For every request body submitted to createNote that is not valid
JSON, the resulting note's body equals the submitted body decoded as UTF-8
text and its title equals the current date formatted as YYYY-MM-DD. -/
theorem raw_body_fallback (db : DB) (s : String) (today : Date) (now : Nat) :
    (create_note db (.raw s) today now).2.body = some s ∧
    (create_note db (.raw s) today now).2.title = some (formatDate today) ∧
    (create_note db (.raw s) today now).2 ∈ (create_note db (.raw s) today now).1.notes := by
  refine ⟨rfl, rfl, ?_⟩
  simp [create_note, Note.fromPayload]

/-- C8: login with a username and password matching a stored user returns
an access token whose decoded subject claim equals that username, together
with token_type "bearer"; login with an unknown username, or a password
that does not verify against the stored hash, fails with the 400 error
"Incorrect username or password" and issues no token (the error carries
none). -/
theorem login_success_and_failure (db : DB) (req : LoginRequest) :
    (∀ u, get_user_by_username db req.username = some u →
        verify_password req.password u.hashed_password = true →
        login_for_access_token db req =
          .ok { access_token := create_access_token { sub := some req.username, exp := none },
                token_type := "bearer" } ∧
        ∀ now, ∃ c, jwt_decode (create_access_token { sub := some req.username, exp := none })
            SECRET_KEY now = some c ∧ c.sub = some req.username) ∧
    (get_user_by_username db req.username = none →
        login_for_access_token db req =
          .error (.httpError 400 "Incorrect username or password")) ∧
    (∀ u, get_user_by_username db req.username = some u →
        verify_password req.password u.hashed_password = false →
        login_for_access_token db req =
          .error (.httpError 400 "Incorrect username or password")) := by
  refine ⟨?_, ?_, ?_⟩
  · intro u hu hv
    have huser : u.username = req.username := by
      have h2 : db.users.find? (fun v => v.username == req.username) = some u := hu
      simpa using List.find?_some h2
    constructor
    · simp [login_for_access_token, hu, hv, huser]
    · intro now
      exact ⟨{ sub := some req.username, exp := none },
        by simp [jwt_decode, create_access_token, hmacSign], rfl⟩
  · intro hu
    simp [login_for_access_token, hu]
  · intro u hu hv
    simp [login_for_access_token, hu, hv]

/-- C8 witness: Alice's login succeeds with a bearer token whose subject is
"alice". -/
theorem login_success_and_failure_witness :
    login_for_access_token dbAlice reqAlice =
      .ok { access_token := create_access_token { sub := some "alice", exp := none },
            token_type := "bearer" } ∧
    ∀ now, ∃ c, jwt_decode (create_access_token { sub := some "alice", exp := none })
        SECRET_KEY now = some c ∧ c.sub = some "alice" :=
  (login_success_and_failure dbAlice reqAlice).1
    ⟨1, "alice", get_password_hash "pw"⟩ rfl rfl

/-- C9: register with a username that already exists fails with the storage
layer's integrity error (a `DbError`, not a typed HTTP conflict), and the
users table — in particular the existing user's stored password hash — is
left unchanged. -/
theorem register_duplicate_unchanged (db : DB) (user : UserCreate)
    (h : ∃ u ∈ db.users, u.username = user.username) :
    (create_user db user).1 = db ∧
    (create_user db user).1.users = db.users ∧
    (create_user db user).2 = .error .integrityError := by
  obtain ⟨u, hu, he⟩ := h
  have hany : db.users.any (fun v => v.username == user.username) = true :=
    List.any_eq_true.2 ⟨u, hu, by simp [he]⟩
  refine ⟨?_, ?_, ?_⟩ <;> simp [create_user, hany]

/-- C9 witness: re-registering "alice" fails and leaves the table as it
was. -/
theorem register_duplicate_unchanged_witness :
    (create_user dbAlice ⟨"alice", "other"⟩).1 = dbAlice ∧
    (create_user dbAlice ⟨"alice", "other"⟩).1.users = dbAlice.users ∧
    (create_user dbAlice ⟨"alice", "other"⟩).2 = .error .integrityError :=
  register_duplicate_unchanged dbAlice ⟨"alice", "other"⟩
    ⟨⟨1, "alice", get_password_hash "pw"⟩, by simp [dbAlice], rfl⟩

/-- C6: For every existing note id and every partial update payload,
updateNote changes exactly the fields set in the payload; every field
omitted from the payload (including the fields `NoteUpdate` cannot even
express) retains its prior value. -/
theorem update_partial_frame (db : DB) (note_id : Nat) (u : NoteUpdate)
    (n : Note) (hfind : find_note db note_id = some n) :
    ∃ db2 n2, update_note db note_id u = .ok (db2, n2) ∧
      (u.title = none → n2.title = n.title) ∧
      (∀ v, u.title = some v → n2.title = v) ∧
      (u.body = none → n2.body = n.body) ∧
      (∀ v, u.body = some v → n2.body = v) ∧
      (u.category = none → n2.category = n.category) ∧
      (∀ v, u.category = some v → n2.category = v) ∧
      n2.url = n.url ∧ n2.username = n.username ∧
      n2.timestamp = n.timestamp ∧ n2.id = n.id := by
  refine ⟨{ db with
      notes := db.notes.map fun m => if m.id == note_id then apply_note_update n u else m },
    apply_note_update n u, by simp [update_note, hfind], ?_, ?_, ?_, ?_, ?_, ?_,
    rfl, rfl, rfl, rfl⟩
  · intro ht; simp [apply_note_update, ht]
  · intro v hv; simp [apply_note_update, hv]
  · intro ht; simp [apply_note_update, ht]
  · intro v hv; simp [apply_note_update, hv]
  · intro ht; simp [apply_note_update, ht]
  · intro v hv; simp [apply_note_update, hv]

/-- C6 witness: updating only the title of `noteEx` keeps body, category
and all other fields. -/
theorem update_partial_frame_witness :
    ∃ db2 n2, update_note dbNote 1 ⟨some (some "T2"), none, none⟩ = .ok (db2, n2) ∧
      ((⟨some (some "T2"), none, none⟩ : NoteUpdate).title = none → n2.title = noteEx.title) ∧
      (∀ v, (⟨some (some "T2"), none, none⟩ : NoteUpdate).title = some v → n2.title = v) ∧
      ((⟨some (some "T2"), none, none⟩ : NoteUpdate).body = none → n2.body = noteEx.body) ∧
      (∀ v, (⟨some (some "T2"), none, none⟩ : NoteUpdate).body = some v → n2.body = v) ∧
      ((⟨some (some "T2"), none, none⟩ : NoteUpdate).category = none →
        n2.category = noteEx.category) ∧
      (∀ v, (⟨some (some "T2"), none, none⟩ : NoteUpdate).category = some v →
        n2.category = v) ∧
      n2.url = noteEx.url ∧ n2.username = noteEx.username ∧
      n2.timestamp = noteEx.timestamp ∧ n2.id = noteEx.id :=
  update_partial_frame dbNote 1 ⟨some (some "T2"), none, none⟩ noteEx rfl

/-- C10: updateNote can modify only title, body and category: the url,
username, timestamp and id of a note are never changed, even when the raw
request payload supplies values for them (pydantic drops the undeclared
keys before the handler runs). -/
theorem update_never_touches_url_username_timestamp_id
    (db : DB) (note_id : Nat) (kvs : List (String × Option String))
    (db2 : DB) (n2 n : Note)
    (hfind : find_note db note_id = some n)
    (h : update_note db note_id (parseNoteUpdate kvs) = .ok (db2, n2)) :
    n2.url = n.url ∧ n2.username = n.username ∧
    n2.timestamp = n.timestamp ∧ n2.id = n.id := by
  simp only [update_note, hfind] at h
  cases h
  exact ⟨rfl, rfl, rfl, rfl⟩

/-- C10 witness: a payload supplying url, username, id and timestamp leaves
all four untouched. -/
theorem update_never_touches_witness :
    (apply_note_update noteEx (parseNoteUpdate
        [("url", some "http://evil"), ("username", some "eve"),
         ("id", some "99"), ("timestamp", some "0"), ("title", some "T2")])).url
      = noteEx.url ∧
    (apply_note_update noteEx (parseNoteUpdate
        [("url", some "http://evil"), ("username", some "eve"),
         ("id", some "99"), ("timestamp", some "0"), ("title", some "T2")])).username
      = noteEx.username ∧
    (apply_note_update noteEx (parseNoteUpdate
        [("url", some "http://evil"), ("username", some "eve"),
         ("id", some "99"), ("timestamp", some "0"), ("title", some "T2")])).timestamp
      = noteEx.timestamp ∧
    (apply_note_update noteEx (parseNoteUpdate
        [("url", some "http://evil"), ("username", some "eve"),
         ("id", some "99"), ("timestamp", some "0"), ("title", some "T2")])).id
      = noteEx.id :=
  update_never_touches_url_username_timestamp_id dbNote 1
    [("url", some "http://evil"), ("username", some "eve"),
     ("id", some "99"), ("timestamp", some "0"), ("title", some "T2")]
    _ _ noteEx rfl rfl

/-! ## Pagination lemmas -/

/-- The `(N + pn - 1) / pn` formula of `read_notes` is the ceiling of
`N / pn`: `total_pages * page_size` covers all `N` rows, and one page
fewer would not. -/
theorem ceil_div_bounds (N pn : Nat) (h : 1 ≤ pn) :
    N ≤ ((N + pn - 1) / pn) * pn ∧ ((N + pn - 1) / pn) * pn < N + pn := by
  have h1 : pn * ((N + pn - 1) / pn) + (N + pn - 1) % pn = N + pn - 1 :=
    Nat.div_add_mod _ _
  have h2 : (N + pn - 1) % pn < pn := Nat.mod_lt _ h
  have key : ∀ M r, r < pn → M + r = N + pn - 1 → N ≤ M ∧ M < N + pn := by
    intro M r hr hM
    omega
  exact key _ _ h2 (by rw [Nat.mul_comm]; exact h1)

/-- Unfolding of the `total_pages` field of `read_notes`. -/
theorem read_notes_total_pages_def (db : DB) (u : String) (page ps : Int) :
    (read_notes db u page ps).total_pages =
      (((db.notes.filter fun n => n.username == some u).length : Int)
        + max 1 ps - 1) / max 1 ps := rfl

/-- Unfolding of the `current_page` field of `read_notes`. -/
theorem read_notes_current_page_def (db : DB) (u : String) (page ps : Int) :
    (read_notes db u page ps).current_page =
      max 1 (min page (read_notes db u page ps).total_pages) := rfl

/-- Unfolding of the `data` field of `read_notes`. -/
theorem read_notes_data_def (db : DB) (u : String) (page ps : Int) :
    (read_notes db u page ps).data =
      ((List.insertionSort idGe (db.notes.filter fun n => n.username == some u)).drop
        (((read_notes db u page ps).current_page - 1) * max 1 ps).toNat).take
        (max 1 ps).toNat := rfl

/-- Field `total_pages`, computed over the naturals. -/
theorem read_notes_total_pages_nat (db : DB) (u : String) (page ps : Int) :
    (read_notes db u page ps).total_pages =
      ((((db.notes.filter fun n => n.username == some u).length
        + (max 1 ps).toNat - 1) / (max 1 ps).toNat : Nat) : Int) := by
  rw [read_notes_total_pages_def]
  have hP : (1 : Int) ≤ max 1 ps := le_max_left _ _
  set pn : Nat := (max 1 ps).toNat with hpndef
  have hpn : (pn : Int) = max 1 ps := Int.toNat_of_nonneg (by omega)
  have h1pn : 1 ≤ pn := by omega
  rw [← hpn]
  set N : Nat := (db.notes.filter fun n => n.username == some u).length
  have hnum : (N : Int) + (pn : Int) - 1 = ((N + pn - 1 : Nat) : Int) := by
    omega
  rw [hnum, ← Int.natCast_div]

/-- Splitting a list into `k` chunks of `pn` elements by `drop`/`take` and
concatenating the chunks restores the list, provided the `k` chunks cover
it. -/
theorem flatten_chunks {α : Type} (pn : Nat) :
    ∀ (k : Nat) (l : List α), l.length ≤ k * pn →
      ((List.range k).map (fun i => ((l.drop (i * pn)).take pn))).flatten = l := by
  intro k
  induction k with
  | zero =>
      intro l h
      simp only [Nat.zero_mul, Nat.le_zero, List.length_eq_zero] at h
      subst h
      simp
  | succ k ih =>
      intro l h
      have hstep : ∀ i : Nat, l.drop (Nat.succ i * pn) = (l.drop pn).drop (i * pn) := by
        intro i
        rw [List.drop_drop, Nat.succ_mul, Nat.add_comm]
      have hlen : (l.drop pn).length ≤ k * pn := by
        rw [Nat.succ_mul] at h
        rw [List.length_drop]
        omega
      rw [List.range_succ_eq_map]
      simp only [List.map_cons, List.flatten_cons, List.map_map, Function.comp_def, hstep,
        Nat.zero_mul, List.drop_zero]
      rw [ih (l.drop pn) hlen]
      exact List.take_append_drop pn l

/-- C2: For every username, page, and pageSize, listNotes clamps pageSize
to a minimum of 1, computes totalPages = ceil(matchingCount / pageSize)
(characterised here by `N ≤ tp·P < N + P`), clamps currentPage into
`[1, totalPages]` (to 1 when totalPages is 0), and reads records at offset
`(currentPage - 1) * pageSize`, filtered by exact username match and
ordered by id descending. -/
theorem read_notes_pagination_mechanics (db : DB) (username : String)
    (page page_size : Int) :
    let r := read_notes db username page page_size
    let P := max 1 page_size
    let matching := db.notes.filter fun n => n.username == some username
    (((matching.length : Int) ≤ r.total_pages * P ∧
        r.total_pages * P < (matching.length : Int) + P) ∧
      r.current_page = max 1 (min page r.total_pages)) ∧
    (1 ≤ r.current_page ∧ r.current_page ≤ max 1 r.total_pages) ∧
    r.data = ((List.insertionSort idGe matching).drop
        ((r.current_page - 1) * P).toNat).take P.toNat := by
  intro r P matching
  have hP : (1 : Int) ≤ P := le_max_left _ _
  have hpn : ((P.toNat : Int)) = P := Int.toNat_of_nonneg (by omega)
  have h1pn : 1 ≤ P.toNat := by omega
  have htp : r.total_pages = (((matching.length + P.toNat - 1) / P.toNat : Nat) : Int) :=
    read_notes_total_pages_nat db username page page_size
  have hcp : r.current_page = max 1 (min page r.total_pages) :=
    read_notes_current_page_def db username page page_size
  refine ⟨⟨?_, hcp⟩, ⟨?_, ?_⟩, ?_⟩
  · rw [htp, ← hpn]
    obtain ⟨hb1, hb2⟩ := ceil_div_bounds matching.length P.toNat h1pn
    constructor
    · exact_mod_cast hb1
    · exact_mod_cast hb2
  · rw [hcp]
    omega
  · rw [hcp]
    have h0 : 0 ≤ r.total_pages := htp ▸ Int.natCast_nonneg _
    omega
  · exact read_notes_data_def db username page page_size

/-- The data returned for the valid page `i + 1` is the `i`-th chunk of the
id-descending, username-filtered list. -/
theorem read_notes_data_at_page (db : DB) (u : String) (pn i : Nat)
    (h1pn : 1 ≤ pn)
    (hi : ((i : Int)) + 1 ≤ (read_notes db u 1 (pn : Int)).total_pages) :
    (read_notes db u ((i : Int) + 1) (pn : Int)).data =
      ((List.insertionSort idGe (db.notes.filter fun n => n.username == some u)).drop
        (i * pn)).take pn := by
  have hmax : max 1 ((pn : Int)) = (pn : Int) := max_eq_right (by exact_mod_cast h1pn)
  have htpsame : (read_notes db u ((i : Int) + 1) (pn : Int)).total_pages
      = (read_notes db u 1 (pn : Int)).total_pages := rfl
  rw [← htpsame] at hi
  have hcp : (read_notes db u ((i : Int) + 1) (pn : Int)).current_page = (i : Int) + 1 := by
    rw [read_notes_current_page_def]
    have h0 : (0 : Int) ≤ (read_notes db u ((i : Int) + 1) (pn : Int)).total_pages := by
      rw [read_notes_total_pages_nat]
      exact Int.natCast_nonneg _
    omega
  rw [read_notes_data_def, hcp, hmax, Int.toNat_ofNat]
  have h5 : (((i : Int) + 1 - 1) * (pn : Int)).toNat = i * pn := by
    have h6 : ((i : Int) + 1 - 1) * (pn : Int) = ((i * pn : Nat) : Int) := by
      push_cast
      ring
    rw [h6, Int.toNat_ofNat]
  rw [h5]

/-- C7: For every username owning N notes and every pageSize P ≥ 1,
listNotes reports total_pages = ceil(N/P) (characterised by
`N ≤ tp·P < N + P`), and concatenating the data of pages 1 through
total_pages in order yields all N of that username's notes exactly once
(a permutation of the matching rows), ordered by descending id. -/
theorem pagination_concat_covers (db : DB) (u : String) (P : Int) (hP : 1 ≤ P) :
    let matching := db.notes.filter fun n => n.username == some u
    let tp := (read_notes db u 1 P).total_pages
    let joined := ((List.range tp.toNat).map
        fun i : Nat => (read_notes db u ((i : Int) + 1) P).data).flatten
    ((matching.length : Int) ≤ tp * P ∧ tp * P < (matching.length : Int) + P) ∧
    joined.Perm matching ∧ List.Sorted idGe joined := by
  obtain ⟨pn, rfl⟩ := Int.eq_ofNat_of_zero_le (le_trans zero_le_one hP)
  have h1pn : 1 ≤ pn := by exact_mod_cast hP
  intro matching tp joined
  have hmax : max 1 ((pn : Nat) : Int) = ((pn : Nat) : Int) :=
    max_eq_right (by exact_mod_cast h1pn)
  have htp : tp = (((matching.length + pn - 1) / pn : Nat) : Int) := by
    show (read_notes db u 1 (pn : Int)).total_pages = _
    rw [read_notes_total_pages_nat, hmax, Int.toNat_ofNat]
  have htpN : tp.toNat = (matching.length + pn - 1) / pn := by
    rw [htp, Int.toNat_ofNat]
  have hbounds := ceil_div_bounds matching.length pn h1pn
  have hS : joined = List.insertionSort idGe matching := by
    have hlen : (List.insertionSort idGe matching).length ≤ tp.toNat * pn := by
      rw [List.length_insertionSort, htpN]
      exact hbounds.1
    have hmap : (List.range tp.toNat).map
          (fun i : Nat => (read_notes db u ((i : Int) + 1) (pn : Int)).data)
        = (List.range tp.toNat).map (fun i =>
            (((List.insertionSort idGe matching).drop (i * pn)).take pn)) :=
      List.map_congr_left (fun i hi => by
        apply read_notes_data_at_page db u pn i h1pn
        have hi2 : i < tp.toNat := List.mem_range.mp hi
        omega)
    show ((List.range tp.toNat).map
        fun i : Nat => (read_notes db u ((i : Int) + 1) (pn : Int)).data).flatten = _
    rw [hmap]
    exact flatten_chunks pn tp.toNat (List.insertionSort idGe matching) hlen
  refine ⟨?_, ?_, ?_⟩
  · rw [htp]
    exact ⟨by exact_mod_cast hbounds.1, by exact_mod_cast hbounds.2⟩
  · rw [hS]
    exact List.perm_insertionSort idGe matching
  · rw [hS]
    exact List.sorted_insertionSort idGe matching

/-- C7 witness: three notes of "user1", page size 2 — two pages whose
concatenation is the three notes in descending id order. -/
theorem pagination_concat_covers_witness :
    let matching := dbNotes3.notes.filter fun n => n.username == some "user1"
    let tp := (read_notes dbNotes3 "user1" 1 2).total_pages
    let joined := ((List.range tp.toNat).map
        fun i : Nat => (read_notes dbNotes3 "user1" ((i : Int) + 1) 2).data).flatten
    ((matching.length : Int) ≤ tp * 2 ∧ tp * 2 < (matching.length : Int) + 2) ∧
    joined.Perm matching ∧ List.Sorted idGe joined :=
  pagination_concat_covers dbNotes3 "user1" 2 (by norm_num)

end NotesApi
